import Mathlib

/-!
Verification of the discourse-tui-client session/content-synchronization engine.

The Go sources are shallowly embedded: pure data flow becomes Lean functions,
HTTP traffic and the filesystem become explicit oracle parameters
(`Except String _` results handed to the function), and machine integers
become `Int`/`Nat` (no arithmetic in the claims overflows).  gjson parsing is
lenient and total, so a parsed document appears as an already-structured
value; the byte-level JSON decoding itself is outside the proved claims.
-/

namespace Discourse

/-- Embeds the Go `discourse.User` struct (client source, `type User`). -/
structure User where
  id : Int
  username : String
  name : String
  avatarTemplate : String
  trustLevel : Int
  moderator : Bool
deriving DecidableEq, Repr

/-- Embeds the Go `discourse.Topic` struct, field for field.  `time.Time`
values are carried opaquely as `Int` (unix nanoseconds); nothing proved here
inspects them. -/
structure Topic where
  id : Int
  title : String
  fancyTitle : String
  slug : String
  postsCount : Int
  replyCount : Int
  highestPostNumber : Int
  imageURL : String
  createdAt : Int
  lastPostedAt : Int
  bumped : Bool
  bumpedAt : Int
  archetype : String
  unseen : Bool
  lastReadPostNumber : Int
  unread : Int
  newPosts : Int
  unreadPosts : Int
  pinned : Bool
  unpinned : Option Bool
  visible : Bool
  closed : Bool
  archived : Bool
  notificationLevel : Int
  bookmarked : Bool
  liked : Bool
  tags : List String
  views : Int
  likeCount : Int
  lastPosterUsername : String
  categoryID : Int
  categoryName : String
  categoryColor : String
deriving DecidableEq, Repr

/-- Embeds the Go `discourse.TopicList` struct. -/
structure TopicListData where
  canCreateTopic : Bool
  moreTopicsURL : String
  perPage : Int
  topTags : List String
  topics : List Topic
deriving DecidableEq, Repr

/-- Embeds the Go `discourse.Response` struct. -/
structure Resp where
  users : List User
  primaryGroups : List String
  flairGroups : List String
  topicList : TopicListData
deriving DecidableEq, Repr

/-- Embeds the Go `discourse.Category` struct. -/
structure Category where
  id : Int
  name : String
  color : String
  textColor : String
  slug : String
  topicCount : Int
  postCount : Int
  position : Int
  description : String
deriving DecidableEq, Repr

/-- Embeds the Go `discourse.ActionsSummary` struct. -/
structure ActionsSummary where
  id : Int
  count : Int
  acted : Bool
  canUndo : Bool
deriving DecidableEq, Repr

/-- Embeds the Go `discourse.Post` struct as parsed by `GetTopicPosts`.
The `score` float64 is carried opaquely as an `Int` code; no claim computes
with it. -/
structure Post where
  id : Int
  name : String
  username : String
  createdAt : Int
  cooked : String
  postNumber : Int
  replyCount : Int
  topicID : Int
  topicSlug : String
  reads : Int
  score : Int
  actionsSummary : List ActionsSummary
deriving DecidableEq, Repr

/-! ### Category enrichment (client source, `GetLatestTopics` lines 322-348,
repeated verbatim in `GetMoreTopics` and in the TUI handlers).

The Go code builds `categoryMap[category.ID] = {Name, Color}` by iterating the
fetched category list; a later entry with the same ID overwrites an earlier
one, so the lookup finds the LAST category carrying the ID. -/

/-- Lookup in the Go `categoryMap`: the last fetched category with the given
ID (Go map inserts overwrite). -/
def catLookup (cats : List Category) (cid : Int) : Option Category :=
  cats.reverse.find? (fun c => c.id == cid)

/-- One step of the enrichment join: set the two derived fields when the
topic's `category_id` matches, leave the topic untouched otherwise. -/
def enrichTopic (cats : List Category) (t : Topic) : Topic :=
  match catLookup cats t.categoryID with
  | some c => { t with categoryName := c.name, categoryColor := c.color }
  | none => t

/-- The enrichment loop `for i := range response.TopicList.Topics {...}`:
every topic is visited in place, so the list is mapped. -/
def enrichTopics (cats : List Category) (ts : List Topic) : List Topic :=
  ts.map (enrichTopic cats)

/-- the `categories, err := c.GetCategories(); if err != nil {log} else
{enrich}` tail shared by `GetLatestTopics` and `GetMoreTopics`: a failed
category fetch is logged and the parsed response returned unenriched. -/
def applyEnrich (parsed : Resp) (cats : Except String (List Category)) : Resp :=
  match cats with
  | .error _ => parsed
  | .ok cs =>
      { parsed with
        topicList := { parsed.topicList with
                        topics := enrichTopics cs parsed.topicList.topics } }

/-- Embeds `Client.GetLatestTopics` after a successful GET of `/latest.json`:
`parsed` is the gjson-parsed document, `cats` the outcome of the embedded
`GetCategories` call; the function enriches before returning. -/
def getLatestTopics (parsed : Resp) (cats : Except String (List Category)) : Resp :=
  applyEnrich parsed cats

/-- Embeds `Client.RefreshTopics` after a successful GET: the function parses
and returns the document directly — it contains no category code at all. -/
def refreshTopicsClient (parsed : Resp) : Resp :=
  parsed

/-- Embeds Go's `strings.HasPrefix(s, p)` over the character data. -/
def goHasPfx (p s : String) : Bool :=
  p.toList.isPrefixOf s.toList

/-- Embeds Go's `strings.HasSuffix(s, p)` over the character data. -/
def goHasSfx (p s : String) : Bool :=
  p.toList.reverse.isPrefixOf s.toList.reverse

/-- Embeds `Client.GetMoreTopics(moreURL)`: empty cursor is an immediate
error; otherwise the cursor is resolved against the base URL, fetched
(`fetch` oracle, indexed by the resolved URL), and the parsed page enriched
exactly as in `GetLatestTopics`. -/
def getMoreTopics (baseURL moreURL : String)
    (fetch : String → Except String Resp)
    (cats : Except String (List Category)) : Except String Resp :=
  if moreURL = "" then .error "no more topics URL provided"
  else
    let fullURL := if goHasPfx "http" moreURL then moreURL else baseURL ++ moreURL
    match fetch fullURL with
    | .error e => .error e
    | .ok parsed => .ok (applyEnrich parsed cats)

/-- Embeds the `R`-key refresh command in `tui.go` (lines 565-601): call
`RefreshTopics`, then fetch categories and apply the same enrichment join in
the caller before the refreshed message is delivered. -/
def tuiRefresh (fetch : Except String Resp)
    (cats : Except String (List Category)) : Except String Resp :=
  match fetch with
  | .error e => .error e
  | .ok response => .ok (applyEnrich (refreshTopicsClient response) cats)

/-! ### The topic-list state machine (`internal/tui/tui.go`)

Only the fields and messages the load-more claims touch are embedded; the
other fields of the bubbletea `Model` (viewport, list widget, search box, ...)
are never read or written by the `"m"` handler or the two completion
handlers, so they are omitted from the state. -/

/-- the slice of `tui.Model` the load-more flow reads and writes. -/
structure TuiModel where
  topics : List Topic
  moreTopicsURL : String
  isLoadingMore : Bool
  statusMessage : String
deriving DecidableEq, Repr

/-- Messages of the load-more flow: the `"m"` key press,
`moreTopicsLoadedMsg` and `moreTopicsLoadErrorMsg`. -/
inductive TuiMsg where
  | keyM
  | moreLoaded (response : Resp)
  | moreLoadError (err : String)
deriving DecidableEq, Repr

/-- a command returned by `Update`: the async `GetMoreTopics` fetch the `"m"`
handler dispatches, carrying the cursor it will fetch. -/
inductive TuiCmd where
  | fetchMore (url : String)
deriving DecidableEq, Repr

/-- the `m.StatusMessage = ""` prologue `Model.Update` runs at `tui.go` line
365 before dispatching on the message: `Update` has a value receiver, so
every branch — including the load-more no-op branch's `return m, nil` —
returns this cleared copy. -/
def clearStatus (m : TuiModel) : TuiModel :=
  { m with statusMessage := "" }

/-- Embeds `Model.Update` restricted to the load-more flow (`tui.go` lines
603-640 for `"m"`, 459-478 for the two completion messages), including the
status-clearing prologue of line 365.  `none` in the second component means
no command was dispatched (the Go handler returned `nil` / only
already-queued cmds). -/
def TuiModel.update (m0 : TuiModel) : TuiMsg → TuiModel × Option TuiCmd
  | .keyM =>
      if (clearStatus m0).isLoadingMore || (clearStatus m0).moreTopicsURL = "" then
        (clearStatus m0, none)
      else
        ({ clearStatus m0 with
            isLoadingMore := true,
            statusMessage := "Loading more topics..." },
         some (.fetchMore (clearStatus m0).moreTopicsURL))
  | .moreLoaded response =>
      ({ clearStatus m0 with
          isLoadingMore := false,
          statusMessage :=
            "Loaded " ++ toString response.topicList.topics.length ++ " more topics!",
          topics := (clearStatus m0).topics ++ response.topicList.topics,
          moreTopicsURL := response.topicList.moreTopicsURL }, none)
  | .moreLoadError err =>
      ({ clearStatus m0 with
          isLoadingMore := false,
          statusMessage := "Error loading more topics: " ++ err }, none)

/-! ### `Client.LoadAllTopics` (client source, lines 1061-1107)

`initial` stands for the `GetLatestTopics()` call, `more` for
`GetMoreTopics(currentMoreURL)`; both oracles deliver the fully parsed and
enriched page or the error the Go call would return.  The Go loop
`for page := 1; page < maxPages && currentMoreURL != ""; page++` runs at most
`maxPages - 1` iterations, which becomes the fuel argument. -/

/-- the page-accumulation loop body of `LoadAllTopics`: on a fetch error the
loop breaks keeping the accumulator; after a successful fetch the page is
appended, the cursor replaced, and a zero-topic page breaks. -/
def loadAllLoop (more : String → Except String Resp) :
    Nat → List Topic → List User → String → List Topic × List User × String
  | 0, ts, us, url => (ts, us, url)
  | fuel + 1, ts, us, url =>
      if url = "" then (ts, us, url)
      else
        match more url with
        | .error _ => (ts, us, url)
        | .ok r =>
            let ts' := ts ++ r.topicList.topics
            let us' := us ++ r.users
            let url' := r.topicList.moreTopicsURL
            if r.topicList.topics.length = 0 then (ts', us', url')
            else loadAllLoop more fuel ts' us' url'

/-- the body of `LoadAllTopics` after the `maxPages <= 0` default has been
applied: initial fetch, the loop, and the assembled result (users and topics
accumulated, loop-final cursor, remaining header fields from the initial
page). -/
def loadAllCore (mp : Int) (initial : Except String Resp)
    (more : String → Except String Resp) : Except String Resp :=
  match initial with
  | .error e => .error ("failed to get initial topics: " ++ e)
  | .ok init =>
      let acc := loadAllLoop more (mp - 1).toNat
        init.topicList.topics init.users init.topicList.moreTopicsURL
      .ok { users := acc.2.1
            primaryGroups := init.primaryGroups
            flairGroups := init.flairGroups
            topicList :=
              { canCreateTopic := init.topicList.canCreateTopic
                moreTopicsURL := acc.2.2
                perPage := init.topicList.perPage
                topTags := init.topicList.topTags
                topics := acc.1 } }

/-- Embeds `Client.LoadAllTopics(maxPages)`: `if maxPages <= 0 { maxPages =
10 }` before the loop. -/
def loadAllTopics (maxPages : Int) (initial : Except String Resp)
    (more : String → Except String Resp) : Except String Resp :=
  loadAllCore (if maxPages ≤ 0 then 10 else maxPages) initial more

/-- Specification-side description of the continuation pages the loop
fetches, in order: stops on empty cursor, fetch error, fuel exhaustion; a
zero-topic page is the last one fetched (the loop appends it, then breaks). -/
def pagesFetched (more : String → Except String Resp) :
    Nat → String → List Resp
  | 0, _ => []
  | fuel + 1, url =>
      if url = "" then []
      else
        match more url with
        | .error _ => []
        | .ok r =>
            if r.topicList.topics.length = 0 then [r]
            else r :: pagesFetched more fuel r.topicList.moreTopicsURL

/-- the accumulated topic component of the loop is the accumulator followed
by the in-order concatenation of the fetched pages' topic lists. -/
theorem loadAllLoop_topics (more : String → Except String Resp) :
    ∀ (fuel : Nat) (ts : List Topic) (us : List User) (url : String),
      (loadAllLoop more fuel ts us url).1 =
        ts ++ ((pagesFetched more fuel url).map
                (fun r => r.topicList.topics)).flatten := by
  intro fuel
  induction fuel with
  | zero => intro ts us url; simp [loadAllLoop, pagesFetched]
  | succ n ih =>
      intro ts us url
      simp only [loadAllLoop, pagesFetched]
      by_cases hurl : url = ""
      · simp [hurl]
      · simp only [hurl, if_false]
        cases hm : more url with
        | error e => simp
        | ok r =>
            by_cases hz : r.topicList.topics.length = 0
            · simp [hz]
            · simp [hz, ih]

/-- the loop never fetches more continuation pages than it has fuel. -/
theorem pagesFetched_length_le (more : String → Except String Resp) :
    ∀ (fuel : Nat) (url : String), (pagesFetched more fuel url).length ≤ fuel := by
  intro fuel
  induction fuel with
  | zero => intro url; simp [pagesFetched]
  | succ n ih =>
      intro url
      simp only [pagesFetched]
      by_cases hurl : url = ""
      · simp [hurl]
      · simp only [hurl, if_false]
        cases hm : more url with
        | error e => simp
        | ok r =>
            by_cases hz : r.topicList.topics.length = 0
            · simp [hz]
            · simp only [hz, if_false, List.length_cons]
              exact Nat.succ_le_succ (ih _)

/-! ### Cookie persistence (client source, `SaveCookies` lines 600-617 and
`LoadCookies` lines 188-218)

Go strings are modelled as `List Char` so that `strings.Split`,
`strings.Join` (single-character separator) and `strings.SplitN(s, "=", 2)`
can be embedded exactly: `Split` is `List.splitOn '\n'`, `Join` is
`List.intercalate ['\n']`, and `SplitN` with limit 2 cuts at the first
`'='`. -/

/-- a Go string, as a character list. -/
abbrev GoStr := List Char

/-- Embeds `strings.SplitN(cookie, "=", 2)`: one part when no `'='` occurs,
otherwise the text before the first `'='` and everything after it. -/
def splitN2Eq (s : GoStr) : List GoStr :=
  if '=' ∈ s then
    [s.takeWhile (fun c => c != '='), (s.dropWhile (fun c => c != '=')).tail]
  else [s]

/-- Embeds `strings.TrimSpace`: drop whitespace from both ends. -/
def trimSpace (s : GoStr) : GoStr :=
  ((s.dropWhile Char.isWhitespace).reverse.dropWhile Char.isWhitespace).reverse

/-- a string with no whitespace at either end (`TrimSpace` is the identity on
these). -/
def noEdgeWs (s : GoStr) : Bool :=
  !(s.head?.any Char.isWhitespace) && !(s.getLast?.any Char.isWhitespace)

/-- the claim's validity condition on one jar cookie: name and value
non-empty, no `'='` in the name, no newline anywhere, no leading or trailing
whitespace. -/
def validCookie (c : GoStr × GoStr) : Bool :=
  !c.1.isEmpty && !c.2.isEmpty && !(decide ('=' ∈ c.1)) &&
    !(decide ('\n' ∈ c.1)) && !(decide ('\n' ∈ c.2)) && noEdgeWs c.1 && noEdgeWs c.2

/-- the serialized line of one cookie, `fmt.Sprintf("%s=%s", name, value)`. -/
def cookieLine (c : GoStr × GoStr) : GoStr :=
  c.1 ++ '=' :: c.2

/-- the file content `SaveCookies` writes:
`strings.Join(cookieStrings, "\n")`. -/
def saveCookiesContent (cookies : List (GoStr × GoStr)) : GoStr :=
  List.intercalate ['\n'] (cookies.map cookieLine)

/-- Embeds `Client.SaveCookies`: reading the jar's cookies for the base URL,
failing with the no-cookies error when there are none, otherwise producing
the file content that `os.WriteFile` persists (the write itself is the
returned value; an error writes nothing by construction). -/
def saveCookies (jarCookies : List (GoStr × GoStr)) : Except String GoStr :=
  if jarCookies.length = 0 then .error "no cookies to save"
  else .ok (saveCookiesContent jarCookies)

/-- the per-line parse step of `LoadCookies`: skip empty lines, skip lines
whose `SplitN` does not yield two parts, trim both parts. -/
def parseCookieLine (line : GoStr) : Option (GoStr × GoStr) :=
  if line = [] then none
  else
    match splitN2Eq line with
    | [n, v] => some (trimSpace n, trimSpace v)
    | _ => none

/-- Embeds `Client.LoadCookies` on file content `data`: split on newlines and
parse each line; the result is the list of name/value pairs handed to
`Jar.SetCookies`, in file order. -/
def loadCookiesPairs (data : GoStr) : List (GoStr × GoStr) :=
  (data.splitOn '\n').filterMap parseCookieLine

/-- Embeds `Client.Login` (client source, lines 562-598).  `csrf` is the
`GetCSRFToken()` outcome, `status` the login POST's HTTP status, and
`jarAtSave` the cookies the jar holds for the base URL when the post-login
`SaveCookies` runs (cookies loaded earlier, set by the CSRF GET, and set by
the login response all accumulate there).  Success carries the cookie file
content written. -/
def login (csrf : Except String String) (status : Nat)
    (jarAtSave : List (GoStr × GoStr)) : Except String GoStr :=
  match csrf with
  | .error e => .error ("failed to get CSRF token: " ++ e)
  | .ok _ =>
      if status ≠ 200 then .error "login failed"
      else
        match saveCookies jarAtSave with
        | .error e => .error ("failed to save cookies after login: " ++ e)
        | .ok content => .ok content

/-! ### Password-based file encryption (`pkg/crypto/crypto.go`)

Bytes are `List Nat`.  AES-GCM and PBKDF2 come from the Go standard
libraries, not from this repository, so they are abstracted: an `AEAD`
carries the nonce size and the `Seal`/`Open` pair, and the two properties the
`cipher.AEAD` contract documents (opening a sealed message with the sealing
key returns the plaintext; opening with a different key fails
authentication) are hypotheses of the theorems.  `Seal(nonce, nonce, data,
nil)` returns `nonce || sealed`, which is modelled explicitly.  The random
salt and nonce are parameters (the `crypto/rand` reads), constrained only by
their lengths. -/

/-- a byte string. -/
abbrev Bytes := List Nat

/-- an authenticated cipher as Go's `cipher.AEAD` presents it:
key → nonce → message, with `opn` (the `Open` direction) fallible. -/
structure AEAD where
  nonceSize : Nat
  sealOp : Bytes → Bytes → Bytes → Bytes
  openOp : Bytes → Bytes → Bytes → Option Bytes

/-- the round-trip half of the `cipher.AEAD` contract. -/
def AEADRoundTrip (g : AEAD) : Prop :=
  ∀ key nonce data, g.openOp key nonce (g.sealOp key nonce data) = some data

/-- the authentication half of the `cipher.AEAD` contract: a ciphertext
sealed under one key never opens under a different key. -/
def AEADAuth (g : AEAD) : Prop :=
  ∀ key key' nonce data, key ≠ key' → g.openOp key' nonce (g.sealOp key nonce data) = none

/-- `SaltLength` from `crypto.go`. -/
def saltLength : Nat := 16

/-- the distinguishable error kinds around `DecryptData`: the three errors
the function itself returns (`"encrypted data too short"`,
`"ciphertext too short"`, `"failed to decrypt"`) plus the file-not-found
error a caller's `os.ReadFile` produces before decryption is ever reached. -/
inductive DecryptErr where
  | fileNotFound
  | dataTooShort
  | ciphertextTooShort
  | authFailed
deriving DecidableEq, Repr

/-- Embeds `EncryptData(data, password)` with the `crypto/rand` salt and
nonce as explicit inputs and PBKDF2 abstracted as `dk`:
`salt || Seal(nonce, nonce, data, nil)` where the key is
`DeriveKey(password, salt)`. -/
def encryptData (g : AEAD) (dk : String → Bytes → Bytes)
    (salt nonce data : Bytes) (password : String) : Bytes :=
  salt ++ (nonce ++ g.sealOp (dk password salt) nonce data)

/-- Embeds `DecryptData(encrypted, password)`: length-check and strip the
16-byte salt, derive the key, length-check and strip the nonce, then `Open`;
an authentication failure is the `"failed to decrypt"` error. -/
def decryptData (g : AEAD) (dk : String → Bytes → Bytes)
    (encrypted : Bytes) (password : String) : Except DecryptErr Bytes :=
  if encrypted.length < saltLength then .error .dataTooShort
  else if (encrypted.drop saltLength).length < g.nonceSize then .error .ciphertextTooShort
  else
    match g.openOp (dk password (encrypted.take saltLength))
            ((encrypted.drop saltLength).take g.nonceSize)
            ((encrypted.drop saltLength).drop g.nonceSize) with
    | some plaintext => .ok plaintext
    | none => .error .authFailed

/-! ### Client construction and `GetTopicPosts` (client source, `NewClient`
lines 159-186, `GetTopicPosts` lines 351-472) -/

/-- the configuration `NewClient` builds: normalized base URL, cookie path,
and the inter-request cooldown in milliseconds. -/
structure ClientCfg where
  baseURL : String
  cookiesPath : String
  pageCooldown : Nat
deriving DecidableEq, Repr

/-- Embeds `NewClient(baseURL, cookiesPath)`: empty base URL is an error, a
missing scheme defaults to `https://`, one trailing slash is stripped
(`strings.TrimSuffix`), and the cooldown is set to 500 ms. -/
def newClient (baseURL cookiesPath : String) : Except String ClientCfg :=
  if baseURL = "" then .error "baseURL is required"
  else
    let b1 :=
      if !(goHasPfx "http://" baseURL) && !(goHasPfx "https://" baseURL) then
        "https://" ++ baseURL
      else baseURL
    let b2 := if goHasSfx "/" b1 then String.mk b1.toList.dropLast else b1
    .ok { baseURL := b2, cookiesPath := cookiesPath, pageCooldown := 500 }

/-- the part of `/t/{id}.json` that `GetTopicPosts` reads: the
`post_stream.stream` ID list and the `post_stream.posts` array. -/
structure TopicDoc where
  stream : List Int
  posts : List Post
deriving DecidableEq, Repr

/-- an HTTP request `GetTopicPosts` can issue: the primary document GET, or
the batch GET to `/t/{id}/posts.json` with every ID as a repeated
`post_ids[]` parameter plus `include_suggested=false`. -/
inductive PostsRequest where
  | getTopic (topicID : Int)
  | batchPosts (topicID : Int) (postIDs : List Int) (includeSuggested : Bool)
deriving DecidableEq, Repr

/-- the observable effects of one `GetTopicPosts` call: requests issued in
order and `time.Sleep` durations performed, in milliseconds. -/
structure FetchTrace where
  requests : List PostsRequest
  sleeps : List Nat
deriving DecidableEq, Repr

/-- Embeds `Client.GetTopicPosts(topicID)` together with its request trace.
`initialFetch` is the `/t/{id}.json` GET outcome (already gjson-parsed),
`batchFetch` the `/t/{id}/posts.json` outcome for a given ID list.  An empty
`post_stream.stream` returns the initial document's posts with no second
request and no sleep; otherwise the client sleeps `pageCooldown` once and
issues exactly one batch request carrying every collected ID. -/
def getTopicPosts (cfg : ClientCfg) (topicID : Int)
    (initialFetch : Except String TopicDoc)
    (batchFetch : List Int → Except String (List Post)) :
    Except String (List Post) × FetchTrace :=
  match initialFetch with
  | .error e =>
      (.error ("failed to fetch initial topic data: " ++ e),
       { requests := [.getTopic topicID], sleeps := [] })
  | .ok doc =>
      let postIDs := doc.stream
      if postIDs.length = 0 then
        (.ok doc.posts, { requests := [.getTopic topicID], sleeps := [] })
      else
        let trace : FetchTrace :=
          { requests := [.getTopic topicID, .batchPosts topicID postIDs false]
            sleeps := [cfg.pageCooldown] }
        match batchFetch postIDs with
        | .error e => (.error ("failed to fetch full posts: " ++ e), trace)
        | .ok posts => (.ok posts, trace)

/-! ### `Client.GetCategories` (client source, lines 722-807)

The filesystem and network are oracles: `cacheDirOk` is whether
`os.UserCacheDir()` succeeded, `cacheRead` the `os.ReadFile(cachePath)`
outcome, `network` the `/categories.json` GET body, `mkdirOk`/`writeOk`
whether `os.MkdirAll`/`os.WriteFile` succeed.  gjson parsing of a body is the
abstract total `parse`.  The result records the returned value, whether the
network was contacted, and what (if anything) was written back to the
cache. -/

deriving instance DecidableEq for Except

/-- the observable outcome of one `GetCategories` call. -/
structure CategoriesCall where
  result : Except String (List Category)
  networkUsed : Bool
  cacheWritten : Option Bytes
deriving DecidableEq, Repr

/-- Embeds `Client.GetCategories`: any successful cache read short-circuits
(no TTL check — no clock is even consulted); on a cache miss the network is
fetched and the raw body written back best-effort, a directory or write
failure being logged and otherwise ignored. -/
def getCategories (parse : Bytes → List Category) (cacheDirOk : Bool)
    (cacheRead : Except String Bytes) (network : Except String Bytes)
    (mkdirOk writeOk : Bool) : CategoriesCall :=
  if !cacheDirOk then
    { result := .error "failed to get cache directory", networkUsed := false,
      cacheWritten := none }
  else
    match cacheRead with
    | .ok data =>
        { result := .ok (parse data), networkUsed := false, cacheWritten := none }
    | .error _ =>
        match network with
        | .error e =>
            { result := .error ("failed to fetch categories: " ++ e),
              networkUsed := true, cacheWritten := none }
        | .ok body =>
            { result := .ok (parse body), networkUsed := true,
              cacheWritten := if mkdirOk && writeOk then some body else none }

/-! ### Helper lemmas -/

/-- dropping a Bool-false head predicate changes nothing. -/
theorem dropWhile_eq_self_of_head {p : Char → Bool} {s : List Char}
    (h : s.head?.any p = false) : s.dropWhile p = s := by
  cases s with
  | nil => rfl
  | cons c t =>
      simp only [List.head?_cons, Option.any_some] at h
      simp [List.dropWhile_cons, h]

/-- `TrimSpace` is the identity on strings with no whitespace at either
end. -/
theorem trimSpace_eq_self {s : GoStr} (h : noEdgeWs s = true) : trimSpace s = s := by
  unfold noEdgeWs at h
  simp only [Bool.and_eq_true, Bool.not_eq_true'] at h
  obtain ⟨h1, h2⟩ := h
  unfold trimSpace
  rw [dropWhile_eq_self_of_head h1,
      dropWhile_eq_self_of_head (by simpa using h2), List.reverse_reverse]

/-- parsing undoes serializing for one valid cookie line. -/
theorem parseCookieLine_cookieLine {n v : GoStr}
    (h : validCookie (n, v) = true) : parseCookieLine (cookieLine (n, v)) = some (n, v) := by
  unfold validCookie at h
  simp only [Bool.and_eq_true, Bool.not_eq_true', decide_eq_false_iff_not] at h
  obtain ⟨⟨⟨⟨⟨⟨hn, hv⟩, heq⟩, hn1⟩, hv1⟩, hwn⟩, hwv⟩ := h
  have hline : cookieLine (n, v) ≠ [] := by
    simp [cookieLine]
  unfold parseCookieLine
  rw [if_neg hline]
  have hmem : '=' ∈ cookieLine (n, v) :=
    List.mem_append.mpr (Or.inr (List.mem_cons_self _ _))
  have htake : (cookieLine (n, v)).takeWhile (fun c => c != '=') = n := by
    unfold cookieLine
    rw [List.takeWhile_append_of_pos (fun a ha => by
      simp only [bne_iff_ne, ne_eq]
      exact fun hc => heq (hc ▸ ha))]
    simp [List.takeWhile_cons]
  have hdrop : ((cookieLine (n, v)).dropWhile (fun c => c != '=')).tail = v := by
    unfold cookieLine
    rw [List.dropWhile_append_of_pos (fun a ha => by
      simp only [bne_iff_ne, ne_eq]
      exact fun hc => heq (hc ▸ ha))]
    simp [List.dropWhile_cons]
  unfold splitN2Eq
  rw [if_pos hmem, htake, hdrop]
  show some (trimSpace n, trimSpace v) = some (n, v)
  rw [trimSpace_eq_self hwn, trimSpace_eq_self hwv]

/-- `filterMap` with a pointwise-`some`-of-itself function is the
identity. -/
theorem filterMap_id_of_all_some {α : Type} {f : α → Option α} :
    ∀ (l : List α), (∀ a ∈ l, f a = some a) → l.filterMap f = l := by
  intro l
  induction l with
  | nil => intro _; rfl
  | cons a t ih =>
      intro h
      rw [List.filterMap_cons, h a (List.mem_cons_self a t),
          ih (fun b hb => h b (List.mem_cons_of_mem a hb))]

/-- loading the file `SaveCookies` wrote recovers the jar's cookie list
exactly, for any non-empty list of valid cookies. -/
theorem loadCookies_saveCookies {cookies : List (GoStr × GoStr)}
    (hne : cookies ≠ []) (hv : ∀ c ∈ cookies, validCookie c = true) :
    loadCookiesPairs (saveCookiesContent cookies) = cookies := by
  unfold loadCookiesPairs saveCookiesContent
  rw [List.splitOn_intercalate (cookies.map cookieLine) '\n'
    (by
      intro l hl
      obtain ⟨c, hc, rfl⟩ := List.mem_map.mp hl
      have h := hv c hc
      unfold validCookie at h
      simp only [Bool.and_eq_true, Bool.not_eq_true', decide_eq_false_iff_not] at h
      obtain ⟨⟨⟨⟨⟨⟨_, _⟩, _⟩, hn1⟩, hv1⟩, _⟩, _⟩ := h
      unfold cookieLine
      intro hmem
      rcases List.mem_append.mp hmem with hinn | hrest
      · exact hn1 hinn
      · rcases List.mem_cons.mp hrest with habs | hinv
        · exact absurd habs (by decide)
        · exact hv1 hinv)
    (by simpa using hne)]
  rw [List.filterMap_map]
  exact filterMap_id_of_all_some cookies (fun c hc => by
    obtain ⟨n, v⟩ := c
    exact parseCookieLine_cookieLine (hv _ hc))

/-- decrypting with the encrypting password undoes `encryptData`, given the
`cipher.AEAD` round-trip contract and well-sized salt and nonce. -/
theorem decryptData_encryptData {g : AEAD} {dk : String → Bytes → Bytes}
    {salt nonce data : Bytes} {password : String}
    (hrt : AEADRoundTrip g) (hs : salt.length = saltLength)
    (hn : nonce.length = g.nonceSize) :
    decryptData g dk (encryptData g dk salt nonce data password) password = .ok data := by
  unfold decryptData encryptData
  rw [if_neg (by simp [List.length_append, hs])]
  rw [List.take_left' hs, List.drop_left' hs]
  rw [if_neg (by simp [List.length_append, hn])]
  rw [List.take_left' hn, List.drop_left' hn, hrt]

/-- decrypting with a password whose derived key differs fails
authentication, given the `cipher.AEAD` authentication contract. -/
theorem decryptData_wrong_key {g : AEAD} {dk : String → Bytes → Bytes}
    {salt nonce data : Bytes} {p p' : String}
    (hauth : AEADAuth g) (hk : dk p salt ≠ dk p' salt)
    (hs : salt.length = saltLength) (hn : nonce.length = g.nonceSize) :
    decryptData g dk (encryptData g dk salt nonce data p) p' = .error .authFailed := by
  unfold decryptData encryptData
  rw [if_neg (by simp [List.length_append, hs])]
  rw [List.take_left' hs, List.drop_left' hs]
  rw [if_neg (by simp [List.length_append, hn])]
  rw [List.take_left' hn, List.drop_left' hn, hauth _ _ _ _ hk]

/-- a toy authenticated cipher satisfying both halves of the `cipher.AEAD`
contract, used to instantiate the crypto theorems at concrete inputs. -/
def toyAEAD : AEAD where
  nonceSize := 12
  sealOp := fun key _ data => key.length :: (key ++ data)
  openOp := fun key _ ct =>
    match ct with
    | [] => none
    | m :: rest =>
        if m = key.length ∧ rest.take m = key then some (rest.drop m) else none

/-- the toy cipher opens its own sealed messages. -/
theorem toyAEAD_roundTrip : AEADRoundTrip toyAEAD := by
  intro key nonce data
  show (if key.length = key.length ∧ (key ++ data).take key.length = key then
          some ((key ++ data).drop key.length) else none) = some data
  rw [if_pos ⟨rfl, List.take_left key data⟩, List.drop_left]

/-- the toy cipher rejects any other key. -/
theorem toyAEAD_auth : AEADAuth toyAEAD := by
  intro key key' nonce data hne
  show (if key.length = key'.length ∧ (key ++ data).take key.length = key' then
          some ((key ++ data).drop key.length) else none) = none
  rw [if_neg]
  rintro ⟨h1, h2⟩
  rw [List.take_left] at h2
  exact hne h2

/-- the effective page cap `LoadAllTopics` runs with. -/
def effCap (maxPages : Int) : Int :=
  if maxPages ≤ 0 then 10 else maxPages

/-- a successful initial fetch makes `loadAllCore` a success whose topic list
is the initial page's topics followed by the concatenated continuation
pages. -/
theorem loadAllCore_ok (mp : Int) (init : Resp)
    (more : String → Except String Resp) :
    ∃ r, loadAllCore mp (.ok init) more = .ok r ∧
      r.topicList.topics =
        init.topicList.topics ++
          ((pagesFetched more (mp - 1).toNat init.topicList.moreTopicsURL).map
            (fun p => p.topicList.topics)).flatten := by
  refine ⟨_, rfl, ?_⟩
  exact loadAllLoop_topics more _ _ _ _

/-- a topic shape with every field zeroed, used to build concrete topics. -/
def defTopic : Topic :=
  { id := 0, title := "", fancyTitle := "", slug := "", postsCount := 0,
    replyCount := 0, highestPostNumber := 0, imageURL := "", createdAt := 0,
    lastPostedAt := 0, bumped := false, bumpedAt := 0, archetype := "",
    unseen := false, lastReadPostNumber := 0, unread := 0, newPosts := 0,
    unreadPosts := 0, pinned := false, unpinned := none, visible := true,
    closed := false, archived := false, notificationLevel := 0,
    bookmarked := false, liked := false, tags := [], views := 0,
    likeCount := 0, lastPosterUsername := "", categoryID := 0,
    categoryName := "", categoryColor := "" }

/-! ### Claim C1 -/

/-- an initial page carrying zero topics but a live continuation cursor. -/
def c1Init : Resp :=
  { users := [], primaryGroups := [], flairGroups := [],
    topicList := { canCreateTopic := false, moreTopicsURL := "/latest.json?page=2",
                   perPage := 30, topTags := [], topics := [] } }

/-- C1 counterexample: with an empty initial page and a failing continuation
fetch, `LoadAllTopics` returns a SUCCESS carrying an EMPTY topic list — the
claim's "(never empty, ...)" in the continuation-error case is false. -/
theorem loadAllTopics_error_case_empty_result :
    loadAllTopics 10 (.ok c1Init) (fun _ => .error "connection refused") = .ok c1Init ∧
    c1Init.topicList.topics = [] := by
  exact ⟨by decide, rfl⟩

/-- C1 (amended): `LoadAllTopics` runs with an effective cap of 10 when
`maxPages ≤ 0` and `maxPages` otherwise; only an initial-fetch failure is an
error; on a successful initial fetch it always succeeds with the in-order
concatenation of the fetched pages' topic lists (so the length is the sum of
the per-page counts), the loop fetching at most cap−1 continuation pages and
stopping on empty cursor, fetch error, or a zero-topic page; the result is
empty only when every successfully fetched page had zero topics (accumulated
progress is never discarded, but it can be empty). -/
theorem loadAllTopics_pagination :
    (∀ (maxPages : Int) (initial : Except String Resp)
        (more : String → Except String Resp), maxPages ≤ 0 →
        loadAllTopics maxPages initial more = loadAllTopics 10 initial more) ∧
    (∀ (mp : Int) (more : String → Except String Resp) (e : String),
        loadAllTopics mp (.error e) more =
          .error ("failed to get initial topics: " ++ e)) ∧
    (∀ (mp : Int) (init : Resp) (more : String → Except String Resp),
        ∃ r, loadAllTopics mp (.ok init) more = .ok r ∧
          r.topicList.topics =
            init.topicList.topics ++
              ((pagesFetched more (effCap mp - 1).toNat
                  init.topicList.moreTopicsURL).map
                (fun p => p.topicList.topics)).flatten ∧
          r.topicList.topics.length =
            init.topicList.topics.length +
              ((pagesFetched more (effCap mp - 1).toNat
                  init.topicList.moreTopicsURL).map
                (fun p => p.topicList.topics.length)).sum ∧
          (r.topicList.topics = [] →
            init.topicList.topics = [] ∧
              ∀ p ∈ pagesFetched more (effCap mp - 1).toNat
                  init.topicList.moreTopicsURL,
                p.topicList.topics = [])) ∧
    (∀ (more : String → Except String Resp) (fuel : Nat) (url : String),
        (pagesFetched more fuel url).length ≤ fuel) := by
  refine ⟨?_, ?_, ?_, pagesFetched_length_le⟩
  · intro maxPages initial more h
    unfold loadAllTopics
    rw [if_pos h, if_neg (by norm_num)]
  · intro mp more e
    rfl
  · intro mp init more
    obtain ⟨r, hr, htop⟩ := loadAllCore_ok (effCap mp) init more
    refine ⟨r, hr, htop, ?_, ?_⟩
    · rw [htop]
      simp [List.length_append, List.length_flatten, List.map_map, Function.comp_def]
    · intro hnil
      rw [htop] at hnil
      rcases List.append_eq_nil.mp hnil with ⟨h1, h2⟩
      refine ⟨h1, ?_⟩
      intro p hp
      have := List.flatten_eq_nil_iff.mp h2 p.topicList.topics
        (List.mem_map.mpr ⟨p, hp, rfl⟩)
      exact this

/-- C1 witness: the amended theorem applied at concrete inputs. -/
theorem loadAllTopics_pagination_witness :
    loadAllTopics (-3) (.ok c1Init) (fun _ => .error "down") =
      loadAllTopics 10 (.ok c1Init) (fun _ => .error "down") ∧
    loadAllTopics 4 (.error "dns failure") (fun _ => .error "down") =
      .error ("failed to get initial topics: " ++ "dns failure") ∧
    (pagesFetched (fun _ => .error "down") 3 "/p2").length ≤ 3 :=
  ⟨loadAllTopics_pagination.1 (-3) (.ok c1Init) (fun _ => .error "down") (by norm_num),
   loadAllTopics_pagination.2.1 4 (fun _ => .error "down") "dns failure",
   loadAllTopics_pagination.2.2.2 (fun _ => .error "down") 3 "/p2"⟩

/-! ### Claim C8 -/

/-- a topic that the server hands out on two different pages. -/
def c8Topic : Topic :=
  { defTopic with id := 42, title := "pinned announcement" }

/-- an initial page carrying `c8Topic` and a continuation cursor. -/
def c8Init : Resp :=
  { users := [], primaryGroups := [], flairGroups := [],
    topicList := { canCreateTopic := false, moreTopicsURL := "/p2",
                   perPage := 30, topTags := [], topics := [c8Topic] } }

/-- a continuation oracle that serves `c8Topic` again on page 2. -/
def c8More : String → Except String Resp := fun url =>
  if url = "/p2" then
    .ok { users := [], primaryGroups := [], flairGroups := [],
          topicList := { canCreateTopic := false, moreTopicsURL := "",
                         perPage := 30, topTags := [], topics := [c8Topic] } }
  else .error "no such page"

/-- the duplicated result `LoadAllTopics` assembles from `c8Init`/`c8More`. -/
def c8Result : Resp :=
  { users := [], primaryGroups := [], flairGroups := [],
    topicList := { canCreateTopic := false, moreTopicsURL := "",
                   perPage := 30, topTags := [], topics := [c8Topic, c8Topic] } }

/-- C8 counterexample: the code never deduplicates, so a server response
sequence that repeats a topic across pages makes the `LoadAllTopics` result
carry a duplicate topic ID — the claim's "holds for every server response
sequence" is false. -/
theorem loadAllTopics_duplicate_ids :
    loadAllTopics 10 (.ok c8Init) c8More = .ok c8Result ∧
    c8Result.topicList.topics.map Topic.id = [42, 42] ∧
    ¬ (c8Result.topicList.topics.map Topic.id).Nodup := by
  refine ⟨by decide, by decide, by decide⟩

/-- C8 (amended): appending a fetched page always preserves the
already-loaded prefix in order, and — under the spec's grounding assumption
that topic IDs are unique across the fetched pages — the merged TUI list and
the `LoadAllTopics` result contain no duplicate topic IDs; without that
assumption duplicates are possible. -/
theorem append_pages_nodup :
    (∀ (m : TuiModel) (resp : Resp),
        ((TuiModel.update m (.moreLoaded resp)).1.topics).take m.topics.length =
          m.topics) ∧
    (∀ (m : TuiModel) (resp : Resp),
        ((m.topics ++ resp.topicList.topics).map Topic.id).Nodup →
        (((TuiModel.update m (.moreLoaded resp)).1.topics).map Topic.id).Nodup) ∧
    (∀ (mp : Int) (init : Resp) (more : String → Except String Resp) (r : Resp),
        loadAllTopics mp (.ok init) more = .ok r →
        ((init.topicList.topics ++
            ((pagesFetched more (effCap mp - 1).toNat
                init.topicList.moreTopicsURL).map
              (fun p => p.topicList.topics)).flatten).map Topic.id).Nodup →
        (r.topicList.topics.map Topic.id).Nodup) := by
  refine ⟨?_, ?_, ?_⟩
  · intro m resp
    show (m.topics ++ resp.topicList.topics).take m.topics.length = m.topics
    exact List.take_left m.topics resp.topicList.topics
  · intro m resp h
    exact h
  · intro mp init more r hr hnd
    obtain ⟨r', hr', htop⟩ := loadAllCore_ok (effCap mp) init more
    have : r' = r := by
      have := hr'.symm.trans hr
      exact Except.ok.inj this
    rw [← this, htop]
    exact hnd

/-- C8 witness: the amended theorem applied at concrete inputs. -/
theorem append_pages_nodup_witness :
    ((TuiModel.update
        { topics := [c8Topic], moreTopicsURL := "/p2", isLoadingMore := false,
          statusMessage := "" }
        (.moreLoaded c1Init)).1.topics).take 1 = [c8Topic] ∧
    (((TuiModel.update
        { topics := [c8Topic], moreTopicsURL := "/p2", isLoadingMore := false,
          statusMessage := "" }
        (.moreLoaded c1Init)).1.topics).map Topic.id).Nodup :=
  ⟨append_pages_nodup.1
      { topics := [c8Topic], moreTopicsURL := "/p2", isLoadingMore := false,
        statusMessage := "" } c1Init,
   append_pages_nodup.2.1
      { topics := [c8Topic], moreTopicsURL := "/p2", isLoadingMore := false,
        statusMessage := "" } c1Init (by decide)⟩

/-! ### Claim C9 -/

/-- a fetched category that a topic's `category_id` matches. -/
def c9Cat : Category :=
  { id := 7, name := "General", color := "ff0000", textColor := "ffffff",
    slug := "general", topicCount := 3, postCount := 9, position := 0,
    description := "" }

/-- a parsed topic whose `category_id` matches `c9Cat`. -/
def c9Topic : Topic :=
  { defTopic with id := 5, title := "hello", categoryID := 7 }

/-- a parsed `/latest.json` response carrying `c9Topic`. -/
def c9Resp : Resp :=
  { users := [], primaryGroups := [], flairGroups := [],
    topicList := { canCreateTopic := false, moreTopicsURL := "",
                   perPage := 30, topTags := [], topics := [c9Topic] } }

/-- C9 counterexample: `RefreshTopics` contains no enrichment code, so even
with a matching fetched category its returned topic keeps empty
`CategoryName`/`CategoryColor` — the claim's "each of ... RefreshTopics()
runs Category Enrichment ... before returning" is false for
`RefreshTopics`. -/
theorem refreshTopics_not_enriched :
    (refreshTopicsClient c9Resp).topicList.topics.map Topic.categoryName = [""] ∧
    catLookup [c9Cat] c9Topic.categoryID = some c9Cat ∧
    c9Cat.name = "General" ∧
    (enrichTopics [c9Cat] c9Resp.topicList.topics).map Topic.categoryName =
      ["General"] := by
  refine ⟨by decide, by decide, rfl, by decide⟩

/-- C9 (amended): `GetLatestTopics` and `GetMoreTopics` run the enrichment
join on the parsed topics before returning, setting `CategoryName` and
`CategoryColor` on every topic whose `category_id` matches a fetched
category; `RefreshTopics` returns the parsed topics unenriched, and the TUI
refresh command applies the same join to its result before delivery. -/
theorem enrichment_policy :
    (∀ (parsed : Resp) (cats : List Category),
        getLatestTopics parsed (.ok cats) =
          { parsed with
            topicList := { parsed.topicList with
                            topics := enrichTopics cats parsed.topicList.topics } }) ∧
    (∀ (baseURL moreURL : String) (fetch : String → Except String Resp)
        (cats : List Category) (parsed : Resp), moreURL ≠ "" →
        fetch (if goHasPfx "http" moreURL then moreURL else baseURL ++ moreURL) =
            .ok parsed →
        getMoreTopics baseURL moreURL fetch (.ok cats) =
          .ok { parsed with
                topicList := { parsed.topicList with
                                topics := enrichTopics cats parsed.topicList.topics } }) ∧
    (∀ parsed : Resp, refreshTopicsClient parsed = parsed) ∧
    (∀ (parsed : Resp) (cats : List Category),
        tuiRefresh (.ok parsed) (.ok cats) =
          .ok { parsed with
                topicList := { parsed.topicList with
                                topics := enrichTopics cats parsed.topicList.topics } }) ∧
    (∀ (cats : List Category) (t : Topic) (c : Category),
        catLookup cats t.categoryID = some c →
        (enrichTopic cats t).categoryName = c.name ∧
          (enrichTopic cats t).categoryColor = c.color) := by
  refine ⟨fun parsed cats => rfl, ?_, fun parsed => rfl, fun parsed cats => rfl, ?_⟩
  · intro baseURL moreURL fetch cats parsed hne hfetch
    unfold getMoreTopics
    rw [if_neg hne]
    show (match fetch (if goHasPfx "http" moreURL then moreURL
                       else baseURL ++ moreURL) with
          | .error e => Except.error e
          | .ok parsed => .ok (applyEnrich parsed (.ok cats))) = _
    rw [hfetch]
    rfl
  · intro cats t c hc
    unfold enrichTopic
    rw [hc]
    exact ⟨rfl, rfl⟩

/-- C9 witness: the amended theorem applied at concrete inputs. -/
theorem enrichment_policy_witness :
    getMoreTopics "https://forum.example.com" "/p2"
        (fun _ => .ok c9Resp) (.ok [c9Cat]) =
      .ok { c9Resp with
            topicList := { c9Resp.topicList with
                            topics := enrichTopics [c9Cat] c9Resp.topicList.topics } } ∧
    (enrichTopic [c9Cat] c9Topic).categoryName = c9Cat.name :=
  ⟨enrichment_policy.2.1 "https://forum.example.com" "/p2"
      (fun _ => .ok c9Resp) [c9Cat] c9Resp (by decide) rfl,
   (enrichment_policy.2.2.2.2 [c9Cat] c9Topic c9Cat (by decide)).1⟩

/-! ### Claim C10 -/

/-- C10: enrichment is a frame-respecting pure join — it never removes,
reorders, or adds topics; a topic with no matching category is returned
entirely unchanged (in particular its derived fields stay empty); a matching
topic changes in exactly the `CategoryName` and `CategoryColor` fields; an
unmatched ID is never an error (the join is total). -/
theorem enrichment_frame :
    (∀ (cats : List Category) (ts : List Topic),
        (enrichTopics cats ts).length = ts.length) ∧
    (∀ (cats : List Category) (ts : List Topic) (i : Nat),
        (enrichTopics cats ts)[i]? = (ts[i]?).map (enrichTopic cats)) ∧
    (∀ (cats : List Category) (t : Topic),
        catLookup cats t.categoryID = none → enrichTopic cats t = t) ∧
    (∀ (cats : List Category) (t : Topic) (c : Category),
        catLookup cats t.categoryID = some c →
        enrichTopic cats t =
          { t with categoryName := c.name, categoryColor := c.color }) := by
  refine ⟨?_, ?_, ?_, ?_⟩
  · intro cats ts
    exact List.length_map ts (enrichTopic cats)
  · intro cats ts i
    exact List.getElem?_map (enrichTopic cats) ts i
  · intro cats t h
    unfold enrichTopic
    rw [h]
  · intro cats t c h
    unfold enrichTopic
    rw [h]

/-- C10 witness: the theorem applied at concrete inputs, showing an
unmatched topic unchanged and a matched one changed in exactly the derived
fields. -/
theorem enrichment_frame_witness :
    enrichTopic [c9Cat] defTopic = defTopic ∧
    enrichTopic [c9Cat] c9Topic =
      { c9Topic with categoryName := c9Cat.name, categoryColor := c9Cat.color } :=
  ⟨enrichment_frame.2.2.1 [c9Cat] defTopic (by decide),
   enrichment_frame.2.2.2 [c9Cat] c9Topic c9Cat (by decide)⟩

/-! ### Claim C2 -/

/-- C2: saving a non-empty jar of valid cookies and loading the written
file reproduces exactly the same name=value pairs (here: the very same list,
which is stronger than set equality under any line order); and the
encryption wrapper round-trips, `DecryptData(EncryptData(data, p), p) =
data`, for every byte string, password, well-sized salt/nonce, and cipher
satisfying the `cipher.AEAD` round-trip contract. -/
theorem save_load_roundTrip :
    (∀ cookies : List (GoStr × GoStr), cookies ≠ [] →
        (∀ c ∈ cookies, validCookie c = true) →
        saveCookies cookies = .ok (saveCookiesContent cookies) ∧
          loadCookiesPairs (saveCookiesContent cookies) = cookies) ∧
    (∀ (g : AEAD) (dk : String → Bytes → Bytes) (salt nonce data : Bytes)
        (password : String),
        AEADRoundTrip g → salt.length = saltLength → nonce.length = g.nonceSize →
        decryptData g dk (encryptData g dk salt nonce data password) password =
          .ok data) := by
  refine ⟨?_, ?_⟩
  · intro cookies hne hv
    constructor
    · unfold saveCookies
      rw [if_neg (by simpa [List.length_eq_zero] using hne)]
    · exact loadCookies_saveCookies hne hv
  · intro g dk salt nonce data password hrt hs hn
    exact decryptData_encryptData hrt hs hn

/-- a derived-key function for the concrete witnesses: the password length
as a one-byte key. -/
def toyDeriveKey : String → Bytes → Bytes := fun password _ => [password.length]

/-- C2 witness: the round trip at one concrete cookie set and one concrete
encryption. -/
theorem save_load_roundTrip_witness :
    loadCookiesPairs (saveCookiesContent [(['s', 'i', 'd'], ['a', 'b', 'c'])]) =
      [(['s', 'i', 'd'], ['a', 'b', 'c'])] ∧
    decryptData toyAEAD toyDeriveKey
        (encryptData toyAEAD toyDeriveKey (List.replicate 16 0)
          (List.replicate 12 1) [104, 105] "hunter2") "hunter2" = .ok [104, 105] :=
  ⟨(save_load_roundTrip.1 [(['s', 'i', 'd'], ['a', 'b', 'c'])]
      (by decide) (by decide)).2,
   save_load_roundTrip.2 toyAEAD toyDeriveKey (List.replicate 16 0)
      (List.replicate 12 1) [104, 105] "hunter2" toyAEAD_roundTrip
      (by decide) (by decide)⟩

/-! ### Claim C3 -/

/-- C3: decrypting with a different password (one whose derived key differs;
PBKDF2 collision-freedom is assumed, and the `cipher.AEAD` authentication
contract abstracts AES-GCM) always yields the `"failed to decrypt"`
authentication error: never plaintext, and the error is distinct from
file-not-found and from the two structurally-corrupt-input errors. -/
theorem decrypt_wrong_password_fails :
    ∀ (g : AEAD) (dk : String → Bytes → Bytes) (salt nonce data : Bytes)
      (p p' : String),
      AEADAuth g → dk p salt ≠ dk p' salt →
      salt.length = saltLength → nonce.length = g.nonceSize →
      decryptData g dk (encryptData g dk salt nonce data p) p' =
          .error .authFailed ∧
        (∀ out, decryptData g dk (encryptData g dk salt nonce data p) p' ≠
          .ok out) ∧
        DecryptErr.authFailed ≠ .fileNotFound ∧
        DecryptErr.authFailed ≠ .dataTooShort ∧
        DecryptErr.authFailed ≠ .ciphertextTooShort := by
  intro g dk salt nonce data p p' hauth hk hs hn
  have h := @decryptData_wrong_key g dk salt nonce data p p' hauth hk hs hn
  refine ⟨h, ?_, by decide, by decide, by decide⟩
  intro out hout
  rw [h] at hout
  exact Except.noConfusion hout

/-- C3 witness: the theorem at one concrete wrong-password decryption. -/
theorem decrypt_wrong_password_fails_witness :
    decryptData toyAEAD toyDeriveKey
        (encryptData toyAEAD toyDeriveKey (List.replicate 16 0)
          (List.replicate 12 1) [1, 2, 3] "correct horse") "tr0ub4dor" =
      .error .authFailed :=
  (decrypt_wrong_password_fails toyAEAD toyDeriveKey (List.replicate 16 0)
      (List.replicate 12 1) [1, 2, 3] "correct horse" "tr0ub4dor"
      toyAEAD_auth (by decide) (by decide) (by decide)).1

/-! ### Claim C4 -/

/-- the jar contents at `SaveCookies` time inside `Login`, decomposed by
provenance: cookies loaded from disk earlier, cookies the CSRF GET's
response set, and cookies the login POST's response set (the `http.Client`
jar accumulates all three). -/
def loginWithJarParts (csrf : Except String String) (status : Nat)
    (loaded csrfSet loginSet : List (GoStr × GoStr)) : Except String GoStr :=
  login csrf status (loaded ++ csrfSet ++ loginSet)

/-- C4 counterexample: an HTTP 200 login whose response set NO session
cookie still returns success whenever the jar already holds a cookie from
another source (here: one set during the CSRF fetch) — the claim's
"consequently Login never returns success when the HTTP 200 login response
set no session cookie" is false. -/
theorem login_success_without_session_cookie :
    loginWithJarParts (.ok "tok") 200 [] [(['f'], ['x'])] [] =
      .ok (saveCookiesContent [(['f'], ['x'])]) := by
  decide

/-- C4 (amended): whenever the jar holds zero cookies for the base URL,
`SaveCookies` fails with the no-cookies error and writes no file, and
`Login` propagates that failure, never returning success — in particular a
login that leaves the jar entirely empty is never persisted as success.  (A
200 response that set no session cookie CAN still be reported as success if
the jar holds cookies from the CSRF fetch or an earlier load.) -/
theorem saveCookies_empty_jar_fails :
    ∀ (csrf : Except String String) (status : Nat)
      (jar : List (GoStr × GoStr)), jar = [] →
      saveCookies jar = .error "no cookies to save" ∧
        ∀ content, login csrf status jar ≠ .ok content := by
  intro csrf status jar hjar
  subst hjar
  refine ⟨rfl, ?_⟩
  intro content h
  cases csrf with
  | error e => exact Except.noConfusion h
  | ok tok =>
      unfold login at h
      by_cases hs : status ≠ 200
      · rw [if_pos hs] at h
        exact Except.noConfusion h
      · rw [if_neg hs] at h
        exact Except.noConfusion h

/-- C4 witness: the amended theorem at one concrete empty-jar login. -/
theorem saveCookies_empty_jar_fails_witness :
    saveCookies ([] : List (GoStr × GoStr)) = .error "no cookies to save" ∧
    login (.ok "tok") 200 [] ≠ .ok [] :=
  ⟨(saveCookies_empty_jar_fails (.ok "tok") 200 [] rfl).1,
   (saveCookies_empty_jar_fails (.ok "tok") 200 [] rfl).2 []⟩

/-! ### Claim C5 -/

/-- C5: `GetTopicPosts` first GETs `/t/{id}.json`; an empty
`post_stream.stream` means the returned posts come from that initial
document with no second request and no sleep; a non-empty stream means the
client sleeps the configured cooldown once (500 ms as set by `NewClient`)
and then issues exactly one batch GET to `/t/{id}/posts.json` carrying every
collected post ID as a repeated `post_ids[]` parameter (with
`include_suggested=false`). -/
theorem getTopicPosts_two_step :
    (∀ (u p : String) (cfg : ClientCfg),
        newClient u p = .ok cfg → cfg.pageCooldown = 500) ∧
    (∀ (cfg : ClientCfg) (topicID : Int) (doc : TopicDoc)
        (batch : List Int → Except String (List Post)),
        doc.stream = [] →
        getTopicPosts cfg topicID (.ok doc) batch =
          (.ok doc.posts, { requests := [.getTopic topicID], sleeps := [] })) ∧
    (∀ (cfg : ClientCfg) (topicID : Int) (doc : TopicDoc)
        (batch : List Int → Except String (List Post)),
        doc.stream ≠ [] →
        (getTopicPosts cfg topicID (.ok doc) batch).2 =
          { requests := [.getTopic topicID,
                         .batchPosts topicID doc.stream false],
            sleeps := [cfg.pageCooldown] }) := by
  refine ⟨?_, ?_, ?_⟩
  · intro u p cfg h
    unfold newClient at h
    by_cases hu : u = ""
    · rw [if_pos hu] at h
      exact Except.noConfusion h
    · rw [if_neg hu] at h
      have := Except.ok.inj h
      rw [← this]
  · intro cfg topicID doc batch h
    show (if doc.stream.length = 0 then
            (Except.ok doc.posts,
             ({ requests := [.getTopic topicID], sleeps := [] } : FetchTrace))
          else
            match batch doc.stream with
            | .error e =>
                (Except.error ("failed to fetch full posts: " ++ e),
                 ({ requests := [.getTopic topicID,
                                 .batchPosts topicID doc.stream false],
                    sleeps := [cfg.pageCooldown] } : FetchTrace))
            | .ok posts =>
                (Except.ok posts,
                 ({ requests := [.getTopic topicID,
                                 .batchPosts topicID doc.stream false],
                    sleeps := [cfg.pageCooldown] } : FetchTrace))) = _
    rw [if_pos (by simp [h])]
  · intro cfg topicID doc batch h
    show (if doc.stream.length = 0 then
            (Except.ok doc.posts,
             ({ requests := [.getTopic topicID], sleeps := [] } : FetchTrace))
          else
            match batch doc.stream with
            | .error e =>
                (Except.error ("failed to fetch full posts: " ++ e),
                 ({ requests := [.getTopic topicID,
                                 .batchPosts topicID doc.stream false],
                    sleeps := [cfg.pageCooldown] } : FetchTrace))
            | .ok posts =>
                (Except.ok posts,
                 ({ requests := [.getTopic topicID,
                                 .batchPosts topicID doc.stream false],
                    sleeps := [cfg.pageCooldown] } : FetchTrace))).2 = _
    rw [if_neg (by simpa [List.length_eq_zero] using h)]
    cases batch doc.stream with
    | error e => rfl
    | ok posts => rfl

/-- a topic document whose post stream is empty. -/
def c5EmptyDoc : TopicDoc :=
  { stream := [],
    posts := [{ id := 9, name := "", username := "ivan", createdAt := 0,
                cooked := "<p>hi</p>", postNumber := 1, replyCount := 0,
                topicID := 3, topicSlug := "hi", reads := 1, score := 0,
                actionsSummary := [] }] }

/-- a topic document with a two-ID post stream. -/
def c5StreamDoc : TopicDoc :=
  { stream := [9, 12], posts := [] }

/-- the client `NewClient("forum.example.com", "cookies.txt")` builds. -/
def c5Cfg : ClientCfg :=
  { baseURL := "https://forum.example.com", cookiesPath := "cookies.txt",
    pageCooldown := 500 }

/-- C5 witness: the theorem at a concrete client and both document
shapes. -/
theorem getTopicPosts_two_step_witness :
    c5Cfg.pageCooldown = 500 ∧
    getTopicPosts c5Cfg 3 (.ok c5EmptyDoc) (fun _ => .error "unused") =
      (.ok c5EmptyDoc.posts, { requests := [.getTopic 3], sleeps := [] }) ∧
    (getTopicPosts c5Cfg 3 (.ok c5StreamDoc) (fun _ => .ok [])).2 =
      { requests := [.getTopic 3, .batchPosts 3 [9, 12] false],
        sleeps := [500] } :=
  ⟨getTopicPosts_two_step.1 "forum.example.com" "cookies.txt" c5Cfg (by decide),
   getTopicPosts_two_step.2.1 c5Cfg 3 c5EmptyDoc (fun _ => .error "unused") rfl,
   getTopicPosts_two_step.2.2 c5Cfg 3 c5StreamDoc (fun _ => .ok []) (by decide)⟩

/-! ### Claim C6 -/

/-- C6: a successful read of the per-instance `categories.json` cache file
short-circuits — the categories are parsed from the cached bytes, no network
request happens, and no TTL or staleness input even exists; the network is
contacted only when the cache read fails; a successful fetch is written back
best-effort, and a directory or write failure never affects the returned
result. -/
theorem getCategories_cache_first :
    (∀ (parse : Bytes → List Category) (cacheRead network : Except String Bytes)
        (mkdirOk writeOk : Bool) (data : Bytes),
        cacheRead = .ok data →
        getCategories parse true cacheRead network mkdirOk writeOk =
          { result := .ok (parse data), networkUsed := false,
            cacheWritten := none }) ∧
    (∀ (parse : Bytes → List Category) (cacheDirOk : Bool)
        (cacheRead network : Except String Bytes) (mkdirOk writeOk : Bool),
        (getCategories parse cacheDirOk cacheRead network mkdirOk
            writeOk).networkUsed = true →
        ∃ e, cacheRead = .error e) ∧
    (∀ (parse : Bytes → List Category) (e : String) (body : Bytes)
        (mkdirOk writeOk : Bool),
        getCategories parse true (.error e) (.ok body) mkdirOk writeOk =
          { result := .ok (parse body), networkUsed := true,
            cacheWritten := if mkdirOk && writeOk then some body else none }) := by
  refine ⟨?_, ?_, ?_⟩
  · intro parse cacheRead network mkdirOk writeOk data h
    subst h
    rfl
  · intro parse cacheDirOk cacheRead network mkdirOk writeOk h
    cases cacheDirOk with
    | false => exact absurd h (by simp [getCategories])
    | true =>
        cases cacheRead with
        | ok data => exact absurd h (by simp [getCategories])
        | error e => exact ⟨e, rfl⟩
  · intro parse e body mkdirOk writeOk
    rfl

/-- C6 witness: the theorem at concrete cache-hit and cache-miss calls. -/
theorem getCategories_cache_first_witness :
    getCategories (fun _ => [c9Cat]) true (.ok [1, 2]) (.error "offline")
        true true =
      { result := .ok [c9Cat], networkUsed := false, cacheWritten := none } ∧
    getCategories (fun _ => [c9Cat]) true (.error "no such file") (.ok [3])
        true false =
      { result := .ok [c9Cat], networkUsed := true, cacheWritten := none } :=
  ⟨getCategories_cache_first.1 (fun _ => [c9Cat]) (.ok [1, 2])
      (.error "offline") true true [1, 2] rfl,
   getCategories_cache_first.2.2 (fun _ => [c9Cat]) "no such file" [3]
      true false⟩

/-! ### Claim C7 -/

/-- a topic-list state with a load-more in flight and a visible status
message. -/
def c7Busy : TuiModel :=
  { topics := [c9Topic], moreTopicsURL := "/latest.json?page=2",
    isLoadingMore := true, statusMessage := "Loading more topics..." }

/-- C7 counterexample: `Model.Update` clears `StatusMessage` at entry
(`tui.go` line 365) before every branch, so the `"m"`-key no-op branch
returns a CHANGED model whenever a status message was showing — the claim's
"the event is a no-op that ... changes no state" is false.  (No network
call is still dispatched.) -/
theorem loadMore_noop_clears_status :
    TuiModel.update c7Busy .keyM = (clearStatus c7Busy, none) ∧
    clearStatus c7Busy ≠ c7Busy ∧
    c7Busy.statusMessage = "Loading more topics..." ∧
    (clearStatus c7Busy).statusMessage = "" := by
  exact ⟨by decide, by decide, rfl, rfl⟩

/-- C7 (amended): the `"m"` key dispatches a `GetMoreTopics` fetch exactly
when the cursor is non-empty and no load-more is in flight; otherwise it
issues no command and leaves topics, cursor, and the in-flight flag
unchanged — the only state change being the status-message clear `Update`
performs at entry on every message; a success appends the new page after
the existing topics and replaces the cursor; a failure leaves topics and
cursor unchanged and surfaces an error status; both completions clear the
in-flight flag and dispatch nothing. -/
theorem loadMore_state_machine :
    (∀ m : TuiModel, m.isLoadingMore = true ∨ m.moreTopicsURL = "" →
        TuiModel.update m .keyM = ({ m with statusMessage := "" }, none)) ∧
    (∀ m : TuiModel, m.isLoadingMore = false → m.moreTopicsURL ≠ "" →
        TuiModel.update m .keyM =
          ({ m with isLoadingMore := true,
                    statusMessage := "Loading more topics..." },
           some (.fetchMore m.moreTopicsURL))) ∧
    (∀ (m : TuiModel) (response : Resp),
        (TuiModel.update m (.moreLoaded response)).1.topics =
            m.topics ++ response.topicList.topics ∧
          (TuiModel.update m (.moreLoaded response)).1.moreTopicsURL =
            response.topicList.moreTopicsURL ∧
          (TuiModel.update m (.moreLoaded response)).1.isLoadingMore = false ∧
          (TuiModel.update m (.moreLoaded response)).2 = none) ∧
    (∀ (m : TuiModel) (err : String),
        (TuiModel.update m (.moreLoadError err)).1.topics = m.topics ∧
          (TuiModel.update m (.moreLoadError err)).1.moreTopicsURL =
            m.moreTopicsURL ∧
          (TuiModel.update m (.moreLoadError err)).1.isLoadingMore = false ∧
          (TuiModel.update m (.moreLoadError err)).1.statusMessage =
            "Error loading more topics: " ++ err ∧
          (TuiModel.update m (.moreLoadError err)).2 = none) := by
  refine ⟨?_, ?_, ?_, ?_⟩
  · intro m h
    unfold TuiModel.update
    rw [if_pos (by
      rcases h with h | h
      · simp [clearStatus, h]
      · simp [clearStatus, h])]
    rfl
  · intro m h1 h2
    unfold TuiModel.update
    rw [if_neg (by simp [clearStatus, h1, h2])]
    rfl
  · intro m response
    exact ⟨rfl, rfl, rfl, rfl⟩
  · intro m err
    exact ⟨rfl, rfl, rfl, rfl, rfl⟩

/-- an idle topic-list state with a live cursor. -/
def c7Idle : TuiModel :=
  { topics := [c9Topic], moreTopicsURL := "/latest.json?page=2",
    isLoadingMore := false, statusMessage := "" }

/-- C7 witness: the amended theorem at concrete in-flight, cursorless, and
idle states. -/
theorem loadMore_state_machine_witness :
    TuiModel.update c7Busy .keyM = ({ c7Busy with statusMessage := "" }, none) ∧
    TuiModel.update { c7Idle with moreTopicsURL := "" } .keyM =
      ({ c7Idle with moreTopicsURL := "" }, none) ∧
    TuiModel.update c7Idle .keyM =
      ({ c7Idle with isLoadingMore := true,
                     statusMessage := "Loading more topics..." },
       some (.fetchMore "/latest.json?page=2")) :=
  ⟨loadMore_state_machine.1 c7Busy (Or.inl rfl),
   loadMore_state_machine.1 { c7Idle with moreTopicsURL := "" }
      (Or.inr rfl),
   loadMore_state_machine.2.1 c7Idle rfl (by decide)⟩

end Discourse
